import Mathlib

/-!
Verification of the virtual-try-on request handlers.

The repository contains two implementations of the `POST /api/generateImage`
endpoint:

* `api/generateImage.js` — the Gemini-backed handler: method check, field
  validation, credential check, product-image fetch, multimodal payload
  assembly, provider call, and response mapping, with a catch-all that maps
  any error raised inside the `try` block to a 500 response with a fixed
  generic message.
* an unnamed second file — a mocked handler: the same method and field
  checks, then an immediate 200 response with a placeholder URL, with no
  credential check and no network call.

A code-review document in the repository additionally describes a "fixed"
text-description variant of the endpoint whose code is not present in the
repository; where a claim needs it, it is modelled from the spec below.

The handlers are embedded as pure functions from an environment (the
process configuration and the outcomes the outside world would return for
the outbound fetch and the provider call) and a request to an outcome
(an HTTP response or an uncaught exception) paired with a record of the
observable effects (whether the fetch happened, what payload was handed to
the provider, what was logged).
-/

/-- JavaScript truthiness for an optional string field: `undefined` and the
empty string are falsy, every other string is truthy. -/
def truthy : Option String → Bool
  | none => false
  | some s => s ≠ ""

/-- JavaScript `x || d` on an optional string: the default is taken when the
value is absent or falsy (empty). Used for
`productResponse.headers.get("content-type") || "image/png"`. -/
def strOr (x : Option String) (d : String) : String :=
  match x with
  | none => d
  | some s => if s = "" then d else s

/-- The parsed JSON request body: the three fields the handlers destructure.
A field absent from the JSON is `none` (JS `undefined`). -/
structure ReqBody where
  userPhoto : Option String
  productImage : Option String
  prompt : Option String
deriving DecidableEq, Repr

/-- An inbound HTTP request: its method and its parsed body.
`body = none` models `req.body` being `undefined` or `null`, in which case
destructuring it throws. -/
structure Request where
  method : String
  body : Option ReqBody
deriving DecidableEq, Repr

/-- The JSON response bodies the handlers produce. -/
inductive ResBody where
  /-- `\x7b error: string \x7d` -/
  | errObj (error : String)
  /-- `\x7b generatedImageUrl: string \x7d` -/
  | imageObj (generatedImageUrl : String)
  /-- `\x7b description, message, type \x7d` (text-description variant) -/
  | textObj (description : String) (message : String) (type : String)
deriving DecidableEq, Repr

/-- What one invocation of a handler does at the HTTP boundary: either a
response with a status code and JSON body, or an uncaught exception escaping
the handler (no response produced by the handler itself). -/
inductive Outcome where
  | response (status : Nat) (body : ResBody)
  | thrown
deriving DecidableEq, Repr

/-- Inline image data as sent to the provider: base64 payload plus MIME tag. -/
structure InlineData where
  mimeType : String
  data : String
deriving DecidableEq, Repr

/-- One element of the multimodal content array handed to the provider. -/
inductive ContentPart where
  | textPart (t : String)
  | inlinePart (d : InlineData)
deriving DecidableEq, Repr

/-- The transport-level result of `fetch(productImage)` when the fetch
resolves: success flag, status text, raw body bytes, and the value of the
`content-type` header (absent when the header is missing). -/
structure FetchResponse where
  ok : Bool
  statusText : String
  bodyBytes : List Nat
  contentType : Option String
deriving DecidableEq, Repr

/-- `inlineData` node of a provider-response part; its `data` field may be
absent (`undefined`). -/
structure RInline where
  data : Option String
deriving DecidableEq, Repr

/-- One part of the provider response content; `inlineData` may be absent. -/
structure RPart where
  inlineData : Option RInline
deriving DecidableEq, Repr

/-- Content of one provider-response candidate. -/
structure RContent where
  parts : List RPart
deriving DecidableEq, Repr

/-- One candidate of the provider response; its `content` may be absent. -/
structure RCandidate where
  content : Option RContent
deriving DecidableEq, Repr

/-- The provider response object `result.response` inspected by the handler. -/
structure GeminiResponse where
  candidates : List RCandidate
deriving DecidableEq, Repr

/-- Environment of one Gemini-handler invocation: the credential from process
configuration, and the outcomes the outside world would return for the
product-image fetch and the provider call (`Except.error` models the promise
rejecting / the call throwing, carrying the error message). -/
structure GeminiEnv where
  googleApiKey : Option String
  fetchResult : Except String FetchResponse
  providerResult : Except String GeminiResponse
deriving Repr

/-- Environment of one mocked-handler invocation: `NODE_ENV` and the value
`Date.now()` would return. -/
structure MockEnv where
  nodeEnv : Option String
  now : Nat
deriving DecidableEq, Repr

/-- Observable effects of one invocation: whether the product-image fetch was
performed, the content array handed to the provider (`none` when the provider
was never invoked), and the error message logged by the catch block (`none`
when nothing was logged). -/
structure Effects where
  fetchCalled : Bool
  providerArg : Option (List ContentPart)
  logged : Option String
deriving DecidableEq, Repr

/-- Whether the provider client was invoked. -/
def Effects.providerCalled (e : Effects) : Bool :=
  e.providerArg.isSome

/-- No outbound call and nothing logged. -/
def Effects.noCalls : Effects :=
  { fetchCalled := false, providerArg := none, logged := none }

/-- The base64 alphabet, as used by `Buffer.toString("base64")`. -/
def base64Alphabet : List Char :=
  "ABCDEFGHIJKLMNOPQRSTUVWXYZabcdefghijklmnopqrstuvwxyz0123456789+/".toList

/-- Character for a 6-bit group. -/
def base64Char (n : Nat) : Char :=
  base64Alphabet.getD n 'A'

/-- RFC 4648 base64 of a byte list, three bytes at a time, `=`-padded. -/
def base64EncodeAux : List Nat → List Char
  | [] => []
  | [b1] =>
      [base64Char (b1 / 4), base64Char (b1 % 4 * 16), '=', '=']
  | [b1, b2] =>
      [base64Char (b1 / 4), base64Char (b1 % 4 * 16 + b2 / 16),
       base64Char (b2 % 16 * 4), '=']
  | b1 :: b2 :: b3 :: rest =>
      base64Char (b1 / 4) :: base64Char (b1 % 4 * 16 + b2 / 16) ::
      base64Char (b2 % 16 * 4 + b3 / 64) :: base64Char (b3 % 64) ::
      base64EncodeAux rest

/-- `Buffer.from(bytes).toString("base64")`. -/
def base64Encode (bs : List Nat) : String :=
  String.mk (base64EncodeAux bs)

/-- JavaScript `s.split(",")` on a character list: the comma-separated
segments, keeping empty segments (so `"".split(",") = [""]` and
`"a,".split(",") = ["a", ""]`). -/
def splitCommaAux : List Char → List (List Char)
  | [] => [[]]
  | c :: cs =>
    if c = ',' then [] :: splitCommaAux cs
    else
      match splitCommaAux cs with
      | [] => [[c]]
      | seg :: rest => (c :: seg) :: rest

/-- JavaScript `s.split(",")`. -/
def splitOnComma (s : String) : List String :=
  (splitCommaAux s.toList).map String.mk

/-- `userPhoto.split(",")[1] || userPhoto`: JavaScript `split` on `","`
yields the comma-separated segments, `[1]` is the second segment
(`undefined` when there is no comma), and `||` falls back to the whole
string when that segment is absent or empty. -/
def userBase64 (userPhoto : String) : String :=
  match (splitOnComma userPhoto).get? 1 with
  | none => userPhoto
  | some s => if s = "" then userPhoto else s

/-- The fixed user-facing message of the catch-all error branch. -/
def genericErrorMessage : String :=
  "Failed to generate try-on image. Please try again or check logs."

/-- The missing-credential message (returned before the try block). -/
def keyNotConfiguredMessage : String :=
  "Google API key not configured"

/-- The 400 message of the Gemini handler. -/
def geminiMissingFieldsMessage : String :=
  "Missing required fields: userPhoto, productImage, or prompt"

/-- The 400 message of the mocked handler. -/
def mockMissingFieldsMessage : String :=
  "Missing required fields (userPhoto, productImage, prompt)"

/-- The no-content error message thrown when the extracted field is falsy. -/
def noGeneratedImageMessage : String :=
  "No generated image in Gemini response"

/-- `result.response.candidates[0].content.parts[0].inlineData.data`
followed by the `if (!generatedBase64) throw` check. Property access on an
absent (`undefined`) object throws a TypeError, whose message is what the
catch block logs; a present but absent-or-empty `data` reaches the explicit
`throw new Error("No generated image in Gemini response")`. -/
def extractGeneratedBase64 (r : GeminiResponse) : Except String String :=
  match r.candidates.head? with
  | none => .error "Cannot read properties of undefined (reading content)"
  | some c =>
    match c.content with
    | none => .error "Cannot read properties of undefined (reading parts)"
    | some ct =>
      match ct.parts.head? with
      | none => .error "Cannot read properties of undefined (reading inlineData)"
      | some p =>
        match p.inlineData with
        | none => .error "Cannot read properties of undefined (reading data)"
        | some d =>
          match d.data with
          | none => .error noGeneratedImageMessage
          | some s => if s = "" then .error noGeneratedImageMessage else .ok s

/-- The Gemini-backed handler of `api/generateImage.js`, step for step:
method check (405), body destructuring (throws on absent body), field
validation (400), credential check (500, before the try block), then inside
the try block: product-image fetch, ok check, base64 encoding and MIME
defaulting, user-photo data-URL stripping, content assembly, provider call,
and response-field extraction; any error inside the try block is logged and
mapped to a 500 with the fixed generic message. -/
def geminiHandler (env : GeminiEnv) (req : Request) : Outcome × Effects :=
  if req.method ≠ "POST" then
    (Outcome.response 405 (ResBody.errObj "Method not allowed"), Effects.noCalls)
  else
    match req.body with
    | none => (Outcome.thrown, Effects.noCalls)
    | some b =>
      if ¬ (truthy b.userPhoto && truthy b.productImage && truthy b.prompt) then
        (Outcome.response 400 (ResBody.errObj geminiMissingFieldsMessage),
         Effects.noCalls)
      else if ¬ truthy env.googleApiKey then
        (Outcome.response 500 (ResBody.errObj keyNotConfiguredMessage),
         Effects.noCalls)
      else
        match env.fetchResult with
        | .error e =>
            (Outcome.response 500 (ResBody.errObj genericErrorMessage),
             { fetchCalled := true, providerArg := none, logged := some e })
        | .ok productResponse =>
          if ¬ productResponse.ok then
            (Outcome.response 500 (ResBody.errObj genericErrorMessage),
             { fetchCalled := true, providerArg := none,
               logged := some ("Failed to fetch product image: "
                 ++ productResponse.statusText) })
          else
            let productBase64 := base64Encode productResponse.bodyBytes
            let productMimeType := strOr productResponse.contentType "image/png"
            let ub := userBase64 (b.userPhoto.getD "")
            let content : List ContentPart :=
              [ContentPart.textPart (b.prompt.getD ""),
               ContentPart.inlinePart ⟨"image/jpeg", ub⟩,
               ContentPart.inlinePart ⟨productMimeType, productBase64⟩]
            match env.providerResult with
            | .error e =>
                (Outcome.response 500 (ResBody.errObj genericErrorMessage),
                 { fetchCalled := true, providerArg := some content,
                   logged := some e })
            | .ok result =>
              match extractGeneratedBase64 result with
              | .error e =>
                  (Outcome.response 500 (ResBody.errObj genericErrorMessage),
                   { fetchCalled := true, providerArg := some content,
                     logged := some e })
              | .ok generatedBase64 =>
                  (Outcome.response 200
                     (ResBody.imageObj ("data:image/png;base64," ++ generatedBase64)),
                   { fetchCalled := true, providerArg := some content,
                     logged := none })

/-- The mocked handler of the unnamed second implementation: the same method
and field checks (with its own 400 message), then a 200 response with a
placeholder URL — a fixed one under `NODE_ENV === "development"`, otherwise
one built from `Date.now()`. No credential is read and no outbound call is
made; the try block cannot throw. -/
def mockHandler (env : MockEnv) (req : Request) : Outcome × Effects :=
  if req.method ≠ "POST" then
    (Outcome.response 405 (ResBody.errObj "Method not allowed"), Effects.noCalls)
  else
    match req.body with
    | none => (Outcome.thrown, Effects.noCalls)
    | some b =>
      if ¬ (truthy b.userPhoto && truthy b.productImage && truthy b.prompt) then
        (Outcome.response 400 (ResBody.errObj mockMissingFieldsMessage),
         Effects.noCalls)
      else
        let generatedImageUrl :=
          if env.nodeEnv = some "development" then
            "https://via.placeholder.com/300?text=Try-On+Preview"
          else
            "https://your-domain.com/generated/" ++ toString env.now ++ ".jpg"
        (Outcome.response 200 (ResBody.imageObj generatedImageUrl),
         Effects.noCalls)

/-- The fixed `message` field of the text-description success body, as given
by the code-review document. -/
def textModeMessage : String :=
  "Virtual try-on description generated (Note: Gemini cannot generate actual images)"

/-- Modelled from the spec: environment of the text-description variant of
the endpoint, whose code is not in the repository (only the code-review
document describing it is). `textResult` is the outcome of the provider call
followed by `response.text()`; the text may be absent. -/
structure TextEnv where
  googleApiKey : Option String
  fetchResult : Except String FetchResponse
  textResult : Except String (Option String)
deriving Repr

/-- Modelled from the spec: the text-description variant of the endpoint
(the "fixed" implementation the code-review document describes, whose code
is not in the repository). Same steps 1-6 as the Gemini handler; step 7
inspects the provider result for its text field, absence raising a
"no content" error; success is a 200 with body
`\x7b description, message, type: "text_description" \x7d`; errors inside
the try block map to a 500 with the same fixed generic message. -/
def textHandler (env : TextEnv) (req : Request) : Outcome × Effects :=
  if req.method ≠ "POST" then
    (Outcome.response 405 (ResBody.errObj "Method not allowed"), Effects.noCalls)
  else
    match req.body with
    | none => (Outcome.thrown, Effects.noCalls)
    | some b =>
      if ¬ (truthy b.userPhoto && truthy b.productImage && truthy b.prompt) then
        (Outcome.response 400 (ResBody.errObj geminiMissingFieldsMessage),
         Effects.noCalls)
      else if ¬ truthy env.googleApiKey then
        (Outcome.response 500 (ResBody.errObj keyNotConfiguredMessage),
         Effects.noCalls)
      else
        match env.fetchResult with
        | .error e =>
            (Outcome.response 500 (ResBody.errObj genericErrorMessage),
             { fetchCalled := true, providerArg := none, logged := some e })
        | .ok productResponse =>
          if ¬ productResponse.ok then
            (Outcome.response 500 (ResBody.errObj genericErrorMessage),
             { fetchCalled := true, providerArg := none,
               logged := some ("Failed to fetch product image: "
                 ++ productResponse.statusText) })
          else
            let productBase64 := base64Encode productResponse.bodyBytes
            let productMimeType := strOr productResponse.contentType "image/png"
            let ub := userBase64 (b.userPhoto.getD "")
            let content : List ContentPart :=
              [ContentPart.textPart (b.prompt.getD ""),
               ContentPart.inlinePart ⟨"image/jpeg", ub⟩,
               ContentPart.inlinePart ⟨productMimeType, productBase64⟩]
            match env.textResult with
            | .error e =>
                (Outcome.response 500 (ResBody.errObj genericErrorMessage),
                 { fetchCalled := true, providerArg := some content,
                   logged := some e })
            | .ok t =>
              if ¬ truthy t then
                (Outcome.response 500 (ResBody.errObj genericErrorMessage),
                 { fetchCalled := true, providerArg := some content,
                   logged := some "No content in Gemini response" })
              else
                (Outcome.response 200
                   (ResBody.textObj (t.getD "") textModeMessage "text_description"),
                 { fetchCalled := true, providerArg := some content,
                   logged := none })

/-- Whether the character list `text` starts with `pat`. -/
def charsStartWith : List Char → List Char → Bool
  | [], _ => true
  | _ :: _, [] => false
  | p :: ps, c :: cs => p = c && charsStartWith ps cs

/-- Whether the character list `text` contains `pat` as a contiguous run. -/
def charsContain : List Char → List Char → Bool
  | [], pat => pat.isEmpty
  | c :: rest, pat => charsStartWith pat (c :: rest) || charsContain rest pat

/-- Whether `msg` mentions `field` (contains it as a substring). -/
def mentions (msg field : String) : Bool :=
  charsContain msg.toList field.toList

/-- The payload the claim describes: the substring of `userPhoto` after its
FIRST comma (everything past the first comma, not just up to the second).
This is the claim formalised, for comparison with `userBase64`. -/
def claimedAfterFirstComma (s : String) : String :=
  String.mk (List.drop 1 (s.toList.dropWhile (fun c => c ≠ ',')))

/-! ## Helper lemmas -/

theorem charsStartWith_self (l : List Char) : charsStartWith l l = true := by
  induction l with
  | nil => rfl
  | cons c cs ih => simp [charsStartWith, ih]

theorem charsContain_append_self (pre pat : List Char) :
    charsContain (pre ++ pat) pat = true := by
  induction pre with
  | nil =>
    cases pat with
    | nil => rfl
    | cons c cs => simp [charsContain, charsStartWith_self]
  | cons p ps ih => simp [charsContain, ih]

theorem mentions_append (pre g : String) : mentions (pre ++ g) g = true := by
  simp [mentions, String.toList, String.data_append, charsContain_append_self]

/-! ## Claims -/

/-- C4: for every request whose method is not POST, both handlers return 405
with body `\x7b error: "Method not allowed" \x7d` and perform no outbound
network call, whatever the body and the environment. -/
theorem non_post_405_no_calls (genv : GeminiEnv) (menv : MockEnv) (req : Request)
    (h : req.method ≠ "POST") :
    geminiHandler genv req =
      (Outcome.response 405 (ResBody.errObj "Method not allowed"), Effects.noCalls) ∧
    mockHandler menv req =
      (Outcome.response 405 (ResBody.errObj "Method not allowed"), Effects.noCalls) := by
  unfold geminiHandler mockHandler
  rw [if_pos h, if_pos h]
  exact ⟨rfl, rfl⟩

theorem non_post_405_no_calls_witness :
    geminiHandler ⟨none, Except.error "x", Except.error "y"⟩ ⟨"GET", none⟩ =
      (Outcome.response 405 (ResBody.errObj "Method not allowed"), Effects.noCalls) ∧
    mockHandler ⟨none, 0⟩ ⟨"GET", none⟩ =
      (Outcome.response 405 (ResBody.errObj "Method not allowed"), Effects.noCalls) :=
  non_post_405_no_calls ⟨none, Except.error "x", Except.error "y"⟩ ⟨none, 0⟩
    ⟨"GET", none⟩ (by decide)

/-- C3: for every POST request in which any of userPhoto, productImage or
prompt is absent or not truthy, both handlers return 400 with their
bad-request body, which names all three fields, and perform no outbound
network call. -/
theorem missing_fields_400_no_calls (genv : GeminiEnv) (menv : MockEnv)
    (req : Request) (b : ReqBody)
    (hm : req.method = "POST") (hb : req.body = some b)
    (hf : (truthy b.userPhoto && truthy b.productImage && truthy b.prompt) = false) :
    geminiHandler genv req =
      (Outcome.response 400 (ResBody.errObj geminiMissingFieldsMessage), Effects.noCalls) ∧
    mockHandler menv req =
      (Outcome.response 400 (ResBody.errObj mockMissingFieldsMessage), Effects.noCalls) ∧
    mentions geminiMissingFieldsMessage "userPhoto" = true ∧
    mentions geminiMissingFieldsMessage "productImage" = true ∧
    mentions geminiMissingFieldsMessage "prompt" = true ∧
    mentions mockMissingFieldsMessage "userPhoto" = true ∧
    mentions mockMissingFieldsMessage "productImage" = true ∧
    mentions mockMissingFieldsMessage "prompt" = true := by
  unfold geminiHandler mockHandler
  rw [hm, hb]
  simp [hf]
  exact ⟨by decide, by decide, by decide, by decide, by decide, by decide⟩

theorem missing_fields_400_no_calls_witness :
    geminiHandler ⟨none, Except.error "x", Except.error "y"⟩
        ⟨"POST", some ⟨none, some "p", some "q"⟩⟩ =
      (Outcome.response 400 (ResBody.errObj geminiMissingFieldsMessage), Effects.noCalls) ∧
    mockHandler ⟨none, 0⟩ ⟨"POST", some ⟨none, some "p", some "q"⟩⟩ =
      (Outcome.response 400 (ResBody.errObj mockMissingFieldsMessage), Effects.noCalls) ∧
    mentions geminiMissingFieldsMessage "userPhoto" = true ∧
    mentions geminiMissingFieldsMessage "productImage" = true ∧
    mentions geminiMissingFieldsMessage "prompt" = true ∧
    mentions mockMissingFieldsMessage "userPhoto" = true ∧
    mentions mockMissingFieldsMessage "productImage" = true ∧
    mentions mockMissingFieldsMessage "prompt" = true :=
  missing_fields_400_no_calls ⟨none, Except.error "x", Except.error "y"⟩ ⟨none, 0⟩
    ⟨"POST", some ⟨none, some "p", some "q"⟩⟩ ⟨none, some "p", some "q"⟩
    rfl rfl (by decide)

/-- C5: for every POST request with all three fields truthy but no truthy
API key in the process configuration, the Gemini handler returns 500 without
performing the product-image fetch and without invoking the provider. -/
theorem missing_key_500_no_calls (env : GeminiEnv) (req : Request) (b : ReqBody)
    (hm : req.method = "POST") (hb : req.body = some b)
    (hf : (truthy b.userPhoto && truthy b.productImage && truthy b.prompt) = true)
    (hk : truthy env.googleApiKey = false) :
    geminiHandler env req =
      (Outcome.response 500 (ResBody.errObj keyNotConfiguredMessage), Effects.noCalls) ∧
    (geminiHandler env req).2.fetchCalled = false ∧
    (geminiHandler env req).2.providerCalled = false := by
  unfold geminiHandler
  rw [hm, hb]
  simp [hf, hk, Effects.providerCalled, Effects.noCalls]

theorem missing_key_500_no_calls_witness :
    geminiHandler ⟨none, Except.error "x", Except.error "y"⟩
        ⟨"POST", some ⟨some "u", some "p", some "q"⟩⟩ =
      (Outcome.response 500 (ResBody.errObj keyNotConfiguredMessage), Effects.noCalls) :=
  (missing_key_500_no_calls ⟨none, Except.error "x", Except.error "y"⟩
    ⟨"POST", some ⟨some "u", some "p", some "q"⟩⟩ ⟨some "u", some "p", some "q"⟩
    rfl rfl (by decide) (by decide)).1

/-- C9: for a POST request whose parsed body is absent (undefined or null),
both handlers throw at the destructuring of the body, before the try block,
so no HTTP response at all is produced by the handler itself and no outbound
call is made. -/
theorem absent_body_throws (genv : GeminiEnv) (menv : MockEnv) (req : Request)
    (hm : req.method = "POST") (hb : req.body = none) :
    geminiHandler genv req = (Outcome.thrown, Effects.noCalls) ∧
    mockHandler menv req = (Outcome.thrown, Effects.noCalls) := by
  unfold geminiHandler mockHandler
  rw [hm, hb]
  simp

theorem absent_body_throws_witness :
    geminiHandler ⟨some "k", Except.error "x", Except.error "y"⟩ ⟨"POST", none⟩ =
      (Outcome.thrown, Effects.noCalls) ∧
    mockHandler ⟨some "development", 7⟩ ⟨"POST", none⟩ =
      (Outcome.thrown, Effects.noCalls) :=
  absent_body_throws ⟨some "k", Except.error "x", Except.error "y"⟩
    ⟨some "development", 7⟩ ⟨"POST", none⟩ rfl rfl

/-- C6: for every otherwise-valid POST invocation whose product-image fetch
resolves with a non-success transport response, an error carrying the
upstream status text is raised internally (it is what the catch block logs),
and the handler returns 500 with a body equal to the fixed generic error
string — hence independent of, and echoing nothing of, the status text. -/
theorem fetch_failure_500_generic (env : GeminiEnv) (req : Request) (b : ReqBody)
    (fr : FetchResponse)
    (hm : req.method = "POST") (hb : req.body = some b)
    (hf : (truthy b.userPhoto && truthy b.productImage && truthy b.prompt) = true)
    (hk : truthy env.googleApiKey = true)
    (hfr : env.fetchResult = Except.ok fr) (hok : fr.ok = false) :
    geminiHandler env req =
      (Outcome.response 500 (ResBody.errObj genericErrorMessage),
       { fetchCalled := true, providerArg := none,
         logged := some ("Failed to fetch product image: " ++ fr.statusText) }) := by
  unfold geminiHandler
  rw [hm, hb]
  simp [hf, hk, hfr, hok]

theorem fetch_failure_500_generic_witness :
    geminiHandler
        ⟨some "k", Except.ok ⟨false, "Not Found", [], none⟩, Except.error "y"⟩
        ⟨"POST", some ⟨some "u", some "p", some "q"⟩⟩ =
      (Outcome.response 500 (ResBody.errObj genericErrorMessage),
       { fetchCalled := true, providerArg := none,
         logged := some ("Failed to fetch product image: " ++ "Not Found") }) :=
  fetch_failure_500_generic
    ⟨some "k", Except.ok ⟨false, "Not Found", [], none⟩, Except.error "y"⟩
    ⟨"POST", some ⟨some "u", some "p", some "q"⟩⟩ ⟨some "u", some "p", some "q"⟩
    ⟨false, "Not Found", [], none⟩ rfl rfl (by decide) (by decide) rfl rfl

/-- C1 counterexample: on a valid POST request with no API key configured,
the Gemini handler returns 500 with the body
`\x7b error: "Google API key not configured" \x7d` — a message different
from the fixed generic message of the catch-all branch — and nothing is
logged, so the missing-credential outcome is neither caught, nor logged,
nor carrying the same fixed message as the other server errors. -/
theorem credential_branch_message_counterexample :
    geminiHandler ⟨none, Except.error "x", Except.error "y"⟩
        ⟨"POST", some ⟨some "u", some "p", some "q"⟩⟩ =
      (Outcome.response 500 (ResBody.errObj keyNotConfiguredMessage), Effects.noCalls) ∧
    keyNotConfiguredMessage ≠ genericErrorMessage ∧
    Effects.noCalls.logged = none := by
  refine ⟨by decide, by decide, rfl⟩

/-- C1 amended: any error arising in steps 4-7 (fetch rejection, non-success
fetch response, provider-call failure, response-field extraction failure) is
caught, logged (the original detail goes only to the log), and mapped to 500
with the one fixed generic message; the missing-credential case (step 3)
also yields 500 with no detail echoed, but via a direct return before the
try block, with its own distinct fixed message and without logging. -/
theorem gemini_error_mapping_amended :
    (∀ (env : GeminiEnv) (req : Request) (b : ReqBody) (e : String),
      req.method = "POST" → req.body = some b →
      (truthy b.userPhoto && truthy b.productImage && truthy b.prompt) = true →
      truthy env.googleApiKey = true →
      env.fetchResult = Except.error e →
      geminiHandler env req =
        (Outcome.response 500 (ResBody.errObj genericErrorMessage),
         { fetchCalled := true, providerArg := none, logged := some e })) ∧
    (∀ (env : GeminiEnv) (req : Request) (b : ReqBody) (fr : FetchResponse),
      req.method = "POST" → req.body = some b →
      (truthy b.userPhoto && truthy b.productImage && truthy b.prompt) = true →
      truthy env.googleApiKey = true →
      env.fetchResult = Except.ok fr → fr.ok = false →
      geminiHandler env req =
        (Outcome.response 500 (ResBody.errObj genericErrorMessage),
         { fetchCalled := true, providerArg := none,
           logged := some ("Failed to fetch product image: " ++ fr.statusText) })) ∧
    (∀ (env : GeminiEnv) (req : Request) (b : ReqBody) (fr : FetchResponse) (e : String),
      req.method = "POST" → req.body = some b →
      (truthy b.userPhoto && truthy b.productImage && truthy b.prompt) = true →
      truthy env.googleApiKey = true →
      env.fetchResult = Except.ok fr → fr.ok = true →
      env.providerResult = Except.error e →
      (geminiHandler env req).1 = Outcome.response 500 (ResBody.errObj genericErrorMessage) ∧
      (geminiHandler env req).2.logged = some e) ∧
    (∀ (env : GeminiEnv) (req : Request) (b : ReqBody) (fr : FetchResponse)
        (r : GeminiResponse) (e : String),
      req.method = "POST" → req.body = some b →
      (truthy b.userPhoto && truthy b.productImage && truthy b.prompt) = true →
      truthy env.googleApiKey = true →
      env.fetchResult = Except.ok fr → fr.ok = true →
      env.providerResult = Except.ok r →
      extractGeneratedBase64 r = Except.error e →
      (geminiHandler env req).1 = Outcome.response 500 (ResBody.errObj genericErrorMessage) ∧
      (geminiHandler env req).2.logged = some e) ∧
    (∀ (env : GeminiEnv) (req : Request) (b : ReqBody),
      req.method = "POST" → req.body = some b →
      (truthy b.userPhoto && truthy b.productImage && truthy b.prompt) = true →
      truthy env.googleApiKey = false →
      geminiHandler env req =
        (Outcome.response 500 (ResBody.errObj keyNotConfiguredMessage), Effects.noCalls)) := by
  refine ⟨?_, ?_, ?_, ?_, ?_⟩
  · intro env req b e hm hb hf hk hfr
    unfold geminiHandler
    rw [hm, hb]
    simp [hf, hk, hfr]
  · intro env req b fr hm hb hf hk hfr hok
    unfold geminiHandler
    rw [hm, hb]
    simp [hf, hk, hfr, hok]
  · intro env req b fr e hm hb hf hk hfr hok hp
    unfold geminiHandler
    rw [hm, hb]
    simp [hf, hk, hfr, hok, hp]
  · intro env req b fr r e hm hb hf hk hfr hok hp hx
    unfold geminiHandler
    rw [hm, hb]
    simp [hf, hk, hfr, hok, hp, hx]
  · intro env req b hm hb hf hk
    unfold geminiHandler
    rw [hm, hb]
    simp [hf, hk]

theorem gemini_error_mapping_amended_witness :
    geminiHandler ⟨some "k", Except.error "fetch failed", Except.error "y"⟩
        ⟨"POST", some ⟨some "u", some "p", some "q"⟩⟩ =
      (Outcome.response 500 (ResBody.errObj genericErrorMessage),
       { fetchCalled := true, providerArg := none, logged := some "fetch failed" }) ∧
    geminiHandler ⟨none, Except.error "x", Except.error "y"⟩
        ⟨"POST", some ⟨some "u", some "p", some "q"⟩⟩ =
      (Outcome.response 500 (ResBody.errObj keyNotConfiguredMessage), Effects.noCalls) :=
  ⟨gemini_error_mapping_amended.1
      ⟨some "k", Except.error "fetch failed", Except.error "y"⟩
      ⟨"POST", some ⟨some "u", some "p", some "q"⟩⟩
      ⟨some "u", some "p", some "q"⟩ "fetch failed" rfl rfl (by decide) (by decide) rfl,
   gemini_error_mapping_amended.2.2.2.2
      ⟨none, Except.error "x", Except.error "y"⟩
      ⟨"POST", some ⟨some "u", some "p", some "q"⟩⟩
      ⟨some "u", some "p", some "q"⟩ rfl rfl (by decide) (by decide)⟩

/-- C7 counterexample: with a provider response whose `candidates` array is
empty, the internal error the catch block logs is the TypeError message of
the failed property access, not the "no content" error message
`"No generated image in Gemini response"`; the handler still returns 500
with the generic message. -/
theorem absent_structure_error_counterexample :
    (geminiHandler
        ⟨some "k", Except.ok ⟨true, "OK", [], none⟩, Except.ok ⟨[]⟩⟩
        ⟨"POST", some ⟨some "u", some "p", some "q"⟩⟩).1 =
      Outcome.response 500 (ResBody.errObj genericErrorMessage) ∧
    (geminiHandler
        ⟨some "k", Except.ok ⟨true, "OK", [], none⟩, Except.ok ⟨[]⟩⟩
        ⟨"POST", some ⟨some "u", some "p", some "q"⟩⟩).2.logged =
      some "Cannot read properties of undefined (reading content)" ∧
    "Cannot read properties of undefined (reading content)" ≠ noGeneratedImageMessage := by
  refine ⟨by decide, by decide, by decide⟩

/-- C7 amended: whenever the provider response lacks the expected inline
payload at candidates[0].content.parts[0].inlineData.data, the field
extraction fails internally and the handler returns 500 with the generic
message, the internal error going to the log; specifically, when the path
exists but the data field is absent or empty the error raised is the
"no content" error, while when the surrounding structure is absent the
failed property access raises a TypeError instead. -/
theorem provider_output_absent_500 :
    (∀ (env : GeminiEnv) (req : Request) (b : ReqBody) (fr : FetchResponse)
        (r : GeminiResponse) (e : String),
      req.method = "POST" → req.body = some b →
      (truthy b.userPhoto && truthy b.productImage && truthy b.prompt) = true →
      truthy env.googleApiKey = true →
      env.fetchResult = Except.ok fr → fr.ok = true →
      env.providerResult = Except.ok r →
      extractGeneratedBase64 r = Except.error e →
      (geminiHandler env req).1 = Outcome.response 500 (ResBody.errObj genericErrorMessage) ∧
      (geminiHandler env req).2.logged = some e ∧
      (geminiHandler env req).2.providerCalled = true) ∧
    (∀ d : Option String, d = none ∨ d = some "" →
      extractGeneratedBase64 ⟨[⟨some ⟨[⟨some ⟨d⟩⟩]⟩⟩]⟩ =
        Except.error noGeneratedImageMessage) ∧
    extractGeneratedBase64 ⟨[]⟩ =
      Except.error "Cannot read properties of undefined (reading content)" ∧
    noGeneratedImageMessage ≠ "Cannot read properties of undefined (reading content)" := by
  refine ⟨?_, ?_, rfl, by decide⟩
  · intro env req b fr r e hm hb hf hk hfr hok hp hx
    unfold geminiHandler
    rw [hm, hb]
    simp [hf, hk, hfr, hok, hp, hx, Effects.providerCalled]
  · intro d hd
    rcases hd with h | h <;> subst h <;> rfl

theorem provider_output_absent_500_witness :
    (geminiHandler
        ⟨some "k", Except.ok ⟨true, "OK", [], none⟩,
         Except.ok ⟨[⟨some ⟨[⟨some ⟨some ""⟩⟩]⟩⟩]⟩⟩
        ⟨"POST", some ⟨some "u", some "p", some "q"⟩⟩).1 =
      Outcome.response 500 (ResBody.errObj genericErrorMessage) ∧
    (geminiHandler
        ⟨some "k", Except.ok ⟨true, "OK", [], none⟩,
         Except.ok ⟨[⟨some ⟨[⟨some ⟨some ""⟩⟩]⟩⟩]⟩⟩
        ⟨"POST", some ⟨some "u", some "p", some "q"⟩⟩).2.logged =
      some noGeneratedImageMessage ∧
    extractGeneratedBase64 ⟨[⟨some ⟨[⟨some ⟨some ""⟩⟩]⟩⟩]⟩ =
      Except.error noGeneratedImageMessage :=
  ⟨(provider_output_absent_500.1
      ⟨some "k", Except.ok ⟨true, "OK", [], none⟩,
       Except.ok ⟨[⟨some ⟨[⟨some ⟨some ""⟩⟩]⟩⟩]⟩⟩
      ⟨"POST", some ⟨some "u", some "p", some "q"⟩⟩
      ⟨some "u", some "p", some "q"⟩ ⟨true, "OK", [], none⟩
      ⟨[⟨some ⟨[⟨some ⟨some ""⟩⟩]⟩⟩]⟩ noGeneratedImageMessage
      rfl rfl (by decide) (by decide) rfl rfl rfl rfl).1,
   (provider_output_absent_500.1
      ⟨some "k", Except.ok ⟨true, "OK", [], none⟩,
       Except.ok ⟨[⟨some ⟨[⟨some ⟨some ""⟩⟩]⟩⟩]⟩⟩
      ⟨"POST", some ⟨some "u", some "p", some "q"⟩⟩
      ⟨some "u", some "p", some "q"⟩ ⟨true, "OK", [], none⟩
      ⟨[⟨some ⟨[⟨some ⟨some ""⟩⟩]⟩⟩]⟩ noGeneratedImageMessage
      rfl rfl (by decide) (by decide) rfl rfl rfl rfl).2.1,
   provider_output_absent_500.2.1 (some "") (Or.inr rfl)⟩

/-- C2: on the fully successful path — POST, all fields truthy, key
configured, fetch successful, provider response carrying the expected field —
the Gemini handler returns 200 with body
`\x7b generatedImageUrl: "data:image/png;base64," ++ g \x7d`, which carries
the extracted field `g` verbatim; and in the text-provider scenario (prompt
"Show how this dress would look on the person", provider returns a
non-empty text) the text-variant handler returns 200 with body
`\x7b description, message, type: "text_description" \x7d` carrying the
provider text verbatim as `description`. -/
theorem handler_success_responses :
    (∀ (env : GeminiEnv) (req : Request) (b : ReqBody) (fr : FetchResponse)
        (r : GeminiResponse) (g : String),
      req.method = "POST" → req.body = some b →
      (truthy b.userPhoto && truthy b.productImage && truthy b.prompt) = true →
      truthy env.googleApiKey = true →
      env.fetchResult = Except.ok fr → fr.ok = true →
      env.providerResult = Except.ok r →
      extractGeneratedBase64 r = Except.ok g →
      (geminiHandler env req).1 =
        Outcome.response 200 (ResBody.imageObj ("data:image/png;base64," ++ g)) ∧
      mentions ("data:image/png;base64," ++ g) g = true) ∧
    (∀ (env : TextEnv) (req : Request) (b : ReqBody) (fr : FetchResponse) (d : String),
      req.method = "POST" → req.body = some b →
      b.prompt = some "Show how this dress would look on the person" →
      truthy b.userPhoto = true → truthy b.productImage = true →
      truthy env.googleApiKey = true →
      env.fetchResult = Except.ok fr → fr.ok = true →
      env.textResult = Except.ok (some d) → d ≠ "" →
      (textHandler env req).1 =
        Outcome.response 200 (ResBody.textObj d textModeMessage "text_description")) := by
  constructor
  · intro env req b fr r g hm hb hf hk hfr hok hp hx
    constructor
    · unfold geminiHandler
      rw [hm, hb]
      simp [hf, hk, hfr, hok, hp, hx]
    · exact mentions_append "data:image/png;base64," g
  · intro env req b fr d hm hb hprompt hu hpi hk hfr hok ht hd
    have hpr : truthy b.prompt = true := by rw [hprompt]; decide
    have hf : (truthy b.userPhoto && truthy b.productImage && truthy b.prompt) = true := by
      rw [hu, hpi, hpr]; rfl
    have htd : truthy (some d) = true := by simp [truthy, hd]
    unfold textHandler
    rw [hm, hb]
    simp [hf, hk, hfr, hok, ht, htd]

theorem handler_success_responses_witness :
    (geminiHandler
        ⟨some "k", Except.ok ⟨true, "OK", [77, 97, 110], some "image/jpeg"⟩,
         Except.ok ⟨[⟨some ⟨[⟨some ⟨some "GEN"⟩⟩]⟩⟩]⟩⟩
        ⟨"POST", some ⟨some "data:image/jpeg;base64,UB", some "https://x/p.jpg",
          some "Show how this dress would look on the person"⟩⟩).1 =
      Outcome.response 200 (ResBody.imageObj ("data:image/png;base64," ++ "GEN")) ∧
    (textHandler
        ⟨some "k", Except.ok ⟨true, "OK", [77, 97, 110], some "image/jpeg"⟩,
         Except.ok (some "The dress would look elegant")⟩
        ⟨"POST", some ⟨some "data:image/jpeg;base64,UB", some "https://x/p.jpg",
          some "Show how this dress would look on the person"⟩⟩).1 =
      Outcome.response 200
        (ResBody.textObj "The dress would look elegant" textModeMessage "text_description") :=
  ⟨(handler_success_responses.1
      ⟨some "k", Except.ok ⟨true, "OK", [77, 97, 110], some "image/jpeg"⟩,
       Except.ok ⟨[⟨some ⟨[⟨some ⟨some "GEN"⟩⟩]⟩⟩]⟩⟩
      ⟨"POST", some ⟨some "data:image/jpeg;base64,UB", some "https://x/p.jpg",
        some "Show how this dress would look on the person"⟩⟩
      ⟨some "data:image/jpeg;base64,UB", some "https://x/p.jpg",
        some "Show how this dress would look on the person"⟩
      ⟨true, "OK", [77, 97, 110], some "image/jpeg"⟩
      ⟨[⟨some ⟨[⟨some ⟨some "GEN"⟩⟩]⟩⟩]⟩ "GEN"
      rfl rfl (by decide) (by decide) rfl rfl rfl rfl).1,
   handler_success_responses.2
      ⟨some "k", Except.ok ⟨true, "OK", [77, 97, 110], some "image/jpeg"⟩,
       Except.ok (some "The dress would look elegant")⟩
      ⟨"POST", some ⟨some "data:image/jpeg;base64,UB", some "https://x/p.jpg",
        some "Show how this dress would look on the person"⟩⟩
      ⟨some "data:image/jpeg;base64,UB", some "https://x/p.jpg",
        some "Show how this dress would look on the person"⟩
      ⟨true, "OK", [77, 97, 110], some "image/jpeg"⟩
      "The dress would look elegant"
      rfl rfl rfl (by decide) (by decide) (by decide) rfl rfl rfl (by decide)⟩

/-- C8: the two implementations of the endpoint are not extensionally
equivalent. They agree fully on the non-POST branch (same 405 response, no
calls) and on the missing-field guard (same 400 status, no calls, though
each has its own message string); but for a fully valid request the mocked
handler returns 200 with a placeholder URL and makes no outbound call and no
credential check (its result is a 200 whatever its environment), while the
Gemini handler returns 500 when no key is configured, and with a key it
performs the product-image fetch and, when the fetch succeeds, invokes the
provider; a concrete valid request on which the two return different
statuses witnesses the non-equivalence. -/
theorem implementations_not_equivalent :
    (∀ (genv : GeminiEnv) (menv : MockEnv) (req : Request),
      req.method ≠ "POST" → geminiHandler genv req = mockHandler menv req) ∧
    (∀ (genv : GeminiEnv) (menv : MockEnv) (req : Request) (b : ReqBody),
      req.method = "POST" → req.body = some b →
      (truthy b.userPhoto && truthy b.productImage && truthy b.prompt) = false →
      (geminiHandler genv req).1 = Outcome.response 400 (ResBody.errObj geminiMissingFieldsMessage) ∧
      (mockHandler menv req).1 = Outcome.response 400 (ResBody.errObj mockMissingFieldsMessage) ∧
      (geminiHandler genv req).2 = Effects.noCalls ∧
      (mockHandler menv req).2 = Effects.noCalls) ∧
    (∀ (menv : MockEnv) (req : Request) (b : ReqBody),
      req.method = "POST" → req.body = some b →
      (truthy b.userPhoto && truthy b.productImage && truthy b.prompt) = true →
      ((mockHandler menv req).1 =
          Outcome.response 200
            (ResBody.imageObj "https://via.placeholder.com/300?text=Try-On+Preview") ∨
        ∃ n : Nat, (mockHandler menv req).1 =
          Outcome.response 200
            (ResBody.imageObj ("https://your-domain.com/generated/" ++ toString n ++ ".jpg"))) ∧
      (mockHandler menv req).2 = Effects.noCalls) ∧
    (∀ (genv : GeminiEnv) (req : Request) (b : ReqBody),
      req.method = "POST" → req.body = some b →
      (truthy b.userPhoto && truthy b.productImage && truthy b.prompt) = true →
      truthy genv.googleApiKey = false →
      (geminiHandler genv req).1 = Outcome.response 500 (ResBody.errObj keyNotConfiguredMessage)) ∧
    (∀ (genv : GeminiEnv) (req : Request) (b : ReqBody) (fr : FetchResponse),
      req.method = "POST" → req.body = some b →
      (truthy b.userPhoto && truthy b.productImage && truthy b.prompt) = true →
      truthy genv.googleApiKey = true →
      genv.fetchResult = Except.ok fr → fr.ok = true →
      (geminiHandler genv req).2.fetchCalled = true ∧
      (geminiHandler genv req).2.providerCalled = true) ∧
    ((geminiHandler ⟨none, Except.error "x", Except.error "y"⟩
        ⟨"POST", some ⟨some "u", some "p", some "q"⟩⟩).1 =
      Outcome.response 500 (ResBody.errObj keyNotConfiguredMessage) ∧
     (mockHandler ⟨none, 5⟩ ⟨"POST", some ⟨some "u", some "p", some "q"⟩⟩).1 =
      Outcome.response 200
        (ResBody.imageObj "https://your-domain.com/generated/5.jpg") ∧
     (geminiHandler ⟨none, Except.error "x", Except.error "y"⟩
        ⟨"POST", some ⟨some "u", some "p", some "q"⟩⟩).1 ≠
     (mockHandler ⟨none, 5⟩ ⟨"POST", some ⟨some "u", some "p", some "q"⟩⟩).1) := by
  refine ⟨?_, ?_, ?_, ?_, ?_, by decide, by decide, by decide⟩
  · intro genv menv req h
    unfold geminiHandler mockHandler
    rw [if_pos h, if_pos h]
  · intro genv menv req b hm hb hf
    unfold geminiHandler mockHandler
    rw [hm, hb]
    simp [hf]
  · intro menv req b hm hb hf
    unfold mockHandler
    rw [hm, hb]
    simp [hf]
    by_cases hn : menv.nodeEnv = some "development"
    · simp [hn]
    · simp [hn]
      exact Or.inr ⟨menv.now, rfl⟩
  · intro genv req b hm hb hf hk
    unfold geminiHandler
    rw [hm, hb]
    simp [hf, hk]
  · intro genv req b fr hm hb hf hk hfr hok
    unfold geminiHandler
    rw [hm, hb]
    simp only [hf, hk, hfr, hok]
    rcases hp : genv.providerResult with e | r
    · simp [hp, Effects.providerCalled]
    · rcases hx : extractGeneratedBase64 r with e | g <;>
        simp [hp, hx, Effects.providerCalled]

theorem implementations_not_equivalent_witness :
    geminiHandler ⟨some "k", Except.error "boom", Except.error "y"⟩ ⟨"DELETE", none⟩ =
      mockHandler ⟨none, 9⟩ ⟨"DELETE", none⟩ ∧
    ((mockHandler ⟨some "development", 9⟩
        ⟨"POST", some ⟨some "u", some "p", some "q"⟩⟩).1 =
      Outcome.response 200
        (ResBody.imageObj "https://via.placeholder.com/300?text=Try-On+Preview") ∨
      ∃ n : Nat, (mockHandler ⟨some "development", 9⟩
        ⟨"POST", some ⟨some "u", some "p", some "q"⟩⟩).1 =
      Outcome.response 200
        (ResBody.imageObj ("https://your-domain.com/generated/" ++ toString n ++ ".jpg"))) :=
  ⟨implementations_not_equivalent.1
      ⟨some "k", Except.error "boom", Except.error "y"⟩ ⟨none, 9⟩
      ⟨"DELETE", none⟩ (by decide),
   (implementations_not_equivalent.2.2.1 ⟨some "development", 9⟩
      ⟨"POST", some ⟨some "u", some "p", some "q"⟩⟩
      ⟨some "u", some "p", some "q"⟩ rfl rfl (by decide)).1⟩

/-- C10 counterexample: for userPhoto `"a,b,c"` the payload the Gemini
handler sends to the provider is `"b"` — the segment between the first and
second comma (`split(",")[1]`) — not `"b,c"`, the (non-empty) substring
after the first comma that the claim describes. -/
theorem user_base64_after_comma_counterexample :
    (geminiHandler
        ⟨some "k", Except.ok ⟨true, "OK", [], none⟩, Except.error "y"⟩
        ⟨"POST", some ⟨some "a,b,c", some "p", some "q"⟩⟩).2.providerArg =
      some [ContentPart.textPart "q",
            ContentPart.inlinePart ⟨"image/jpeg", "b"⟩,
            ContentPart.inlinePart ⟨"image/png", ""⟩] ∧
    claimedAfterFirstComma "a,b,c" = "b,c" ∧
    ("b,c" : String) ≠ "" ∧
    ("b" : String) ≠ "b,c" := by
  refine ⟨by decide, by decide, by decide, by decide⟩

/-- C10 amended: on every invocation that reaches the provider call, the
user photo is sent tagged `"image/jpeg"` whatever its data-URL prefix
declares, with payload `userPhoto.split(",")[1] || userPhoto` — the segment
between the first and second comma when it exists and is non-empty, and the
entire userPhoto string otherwise (in particular when there is no comma,
when that segment is empty, and when the string ends in a comma). -/
theorem user_photo_payload_amended :
    (∀ (env : GeminiEnv) (req : Request) (b : ReqBody) (fr : FetchResponse),
      req.method = "POST" → req.body = some b →
      (truthy b.userPhoto && truthy b.productImage && truthy b.prompt) = true →
      truthy env.googleApiKey = true →
      env.fetchResult = Except.ok fr → fr.ok = true →
      (geminiHandler env req).2.providerArg =
        some [ContentPart.textPart (b.prompt.getD ""),
              ContentPart.inlinePart ⟨"image/jpeg", userBase64 (b.userPhoto.getD "")⟩,
              ContentPart.inlinePart
                ⟨strOr fr.contentType "image/png", base64Encode fr.bodyBytes⟩]) ∧
    (∀ s seg : String, (splitOnComma s).get? 1 = some seg → seg ≠ "" →
      userBase64 s = seg) ∧
    (∀ s seg : String, (splitOnComma s).get? 1 = some seg → seg = "" →
      userBase64 s = s) ∧
    (∀ s : String, (splitOnComma s).get? 1 = none → userBase64 s = s) := by
  refine ⟨?_, ?_, ?_, ?_⟩
  · intro env req b fr hm hb hf hk hfr hok
    unfold geminiHandler
    rw [hm, hb]
    simp only [hf, hk, hfr, hok]
    rcases hp : env.providerResult with e | r
    · simp [hp]
    · rcases hx : extractGeneratedBase64 r with e | g <;> simp [hp, hx]
  · intro s seg h hne
    unfold userBase64
    rw [h]
    simp [hne]
  · intro s seg h he
    unfold userBase64
    rw [h]
    simp [he]
  · intro s h
    unfold userBase64
    rw [h]

theorem user_photo_payload_amended_witness :
    (geminiHandler
        ⟨some "k", Except.ok ⟨true, "OK", [77, 97, 110], some "text/html"⟩,
         Except.error "y"⟩
        ⟨"POST", some ⟨some "data:image/png;base64,UB", some "p", some "q"⟩⟩).2.providerArg =
      some [ContentPart.textPart "q",
            ContentPart.inlinePart ⟨"image/jpeg", "UB"⟩,
            ContentPart.inlinePart ⟨"text/html", "TWFu"⟩] ∧
    userBase64 "a,b,c" = "b" ∧
    userBase64 "abc," = "abc," ∧
    userBase64 "abc" = "abc" :=
  ⟨user_photo_payload_amended.1
      ⟨some "k", Except.ok ⟨true, "OK", [77, 97, 110], some "text/html"⟩,
       Except.error "y"⟩
      ⟨"POST", some ⟨some "data:image/png;base64,UB", some "p", some "q"⟩⟩
      ⟨some "data:image/png;base64,UB", some "p", some "q"⟩
      ⟨true, "OK", [77, 97, 110], some "text/html"⟩
      rfl rfl (by decide) (by decide) rfl rfl,
   user_photo_payload_amended.2.1 "a,b,c" "b" rfl (by decide),
   user_photo_payload_amended.2.2.1 "abc," "" rfl rfl,
   user_photo_payload_amended.2.2.2 "abc" rfl⟩
